import Mathlib

/-!
Verification development for the `where-am-i-listening` location-resolution
pipeline (shared resolver module `location-resolver.js` and the Cloudflare
worker `worker/src/index.js`).

The JavaScript code is shallowly embedded: strings are Lean `String`s
(JS `null`/`undefined` become `Option`), JS truthiness on strings is the
`truthyS` predicate (`null`, `undefined` and `""` are falsy), numbers that
the code only compares are `Int`/`Nat`, and every outbound HTTP call is an
oracle living in an `Env` record, so a theorem quantified over `Env`
holds for every possible behaviour of the upstream services.
-/

-- ---------------------------------------------------------------------------
-- JS string primitives (models of the String methods used by the resolver)
-- ---------------------------------------------------------------------------

/-- Model of JS `String.prototype.toLowerCase` restricted to ASCII. -/
def jsToLower (s : String) : String := String.mk (s.data.map Char.toLower)

/-- Model of JS `String.prototype.trim`. -/
def jsTrim (s : String) : String :=
  String.mk (((s.data.dropWhile Char.isWhitespace).reverse.dropWhile Char.isWhitespace).reverse)

/-- Split a character list at every character satisfying `p`
(the splitting used by `"a,b".split(',')`: separators are not kept,
adjacent separators and boundary separators yield empty segments). -/
def splitByPred (p : Char → Bool) : List Char → List (List Char)
  | [] => [[]]
  | c :: t =>
    if p c then [] :: splitByPred p t
    else
      match splitByPred p t with
      | h :: r => (c :: h) :: r
      | [] => [[c]]

/-- Model of JS `s.split(sep)` for a single-character separator. -/
def jsSplitOn (sep : Char) (s : String) : List String :=
  (splitByPred (fun c => c == sep) s.data).map String.mk

/-- Model of JS `s.split(/\s+/)`. The resolver only applies it to strings
that have already been trimmed, where the regex split equals splitting on
whitespace and dropping empty segments — except for the empty string, where
JS returns `[""]`. -/
def splitWsJS (s : String) : List String :=
  if s.data = [] then [""]
  else ((splitByPred Char.isWhitespace s.data).filter (fun w => w ≠ [])).map String.mk

/-- Is `needle` a prefix of `hay`? (helper for the substring test). -/
def jsStartsWith : List Char → List Char → Bool
  | [], _ => true
  | _ :: _, [] => false
  | a :: as, b :: bs => a == b && jsStartsWith as bs

/-- Recursive worker for the substring test. -/
def jsIncludesGo (needle : List Char) : List Char → Bool
  | [] => needle.isEmpty
  | c :: t => jsStartsWith needle (c :: t) || jsIncludesGo needle t

/-- Model of JS `hay.includes(needle)`: contiguous substring test.
`hay.includes("")` is `true`, as in JS. -/
def jsIncludes (hay needle : String) : Bool :=
  jsIncludesGo needle.data hay.data

/-- Model of JS `w.slice(0, -2)`: drop the last two characters
(clamped, so words of length ≤ 2 give the empty string). -/
def jsSliceDropLast2 (w : String) : String :=
  String.mk (w.data.take (w.data.length - 2))

/-- JS truthiness for a string-or-null value: `null`/`undefined` and `""`
are falsy, every other string is truthy. -/
def truthyS : Option String → Bool
  | none => false
  | some s => s != ""

/-- Model of the JS idiom `x || null`: coerce a falsy string to `null`. -/
def jsOr : Option String → Option String
  | none => none
  | some s => if s == "" then none else some s

-- ---------------------------------------------------------------------------
-- Area specificity helpers (location-resolver.js lines 25-78)
-- ---------------------------------------------------------------------------

/-- `areaSpecificity(areaType)` (lines 25-40). The guard `if (!areaType)`
is JS truthiness, so the empty string also yields `-1`. -/
def areaSpecificity (areaType : Option String) : Int :=
  match areaType with
  | none => -1
  | some s =>
    if s == "" then -1
    else
      let t := jsToLower s
      if t == "country" then 0
      else if t == "subdivision" then 1
      else if t == "county" then 2
      else if t == "city" || t == "municipality" || t == "district" ||
              t == "town" || t == "village" || t == "island" then 3
      else 1

/-- `isCityLevel(areaType)` (lines 66-68). -/
def isCityLevel (areaType : Option String) : Bool :=
  areaSpecificity areaType ≥ 3

-- ---------------------------------------------------------------------------
-- Name matching (location-resolver.js lines 87-116)
-- ---------------------------------------------------------------------------

/-- `isExactMatch(searchName, resultName)` (lines 87-89). -/
def isExactMatch (searchName resultName : String) : Bool :=
  jsTrim (jsToLower searchName) == jsTrim (jsToLower resultName)

/-- `verifyArtistMatch(searchName, resultName)` (lines 95-116).
The float comparison `missing / total <= 0.4` is modelled by the exact
rational inequality `5 * missing ≤ 2 * total`; for the integer ranges
involved the IEEE-double comparison agrees with the rational one. -/
def verifyArtistMatch (searchName resultName : String) : Bool :=
  let searchLower := jsTrim (jsToLower searchName)
  let resultLower := jsTrim (jsToLower resultName)
  let searchWords := splitWsJS searchLower
  if searchWords.length == 1 then searchLower == resultLower
  else
    let missingWords :=
      (searchWords.filter (fun word =>
        !(jsIncludes resultLower word) && !(jsIncludes resultLower (jsSliceDropLast2 word)))).length
    decide (5 * missingWords ≤ 2 * searchWords.length)

-- ---------------------------------------------------------------------------
-- Quick sanity examples mirroring the repository's unit tests
-- ---------------------------------------------------------------------------

example : areaSpecificity none = -1 := by decide
example : areaSpecificity (some "Country") = 0 := by decide
example : areaSpecificity (some "city") = 3 := by decide
example : areaSpecificity (some "something_else") = 1 := by decide
example : verifyArtistMatch "Taylor" "Taylor Swift" = false := by decide
example : verifyArtistMatch "Taylor Swift" "Taylor Alison Swift" = true := by decide
example : verifyArtistMatch "Keli Holiday" "Billie Holiday" = false := by decide
example : verifyArtistMatch "The Beatles" "Beatles, The" = true := by decide

-- ---------------------------------------------------------------------------
-- Country code / display name helpers (location-resolver.js lines 125-174)
-- ---------------------------------------------------------------------------

/-- `extractCountryCode(areaData)` (lines 125-133), over the two ISO code
lists of the JSON object. `substring(0, 2)` is the first two characters. -/
def extractCountryCode (iso1 iso2 : List String) : Option String :=
  match iso1 with
  | c :: _ => some c
  | [] =>
    match iso2 with
    | c :: _ => some (String.mk (c.data.take 2))
    | [] => none

/-- `normalizeDisplayName(displayName)` (lines 155-161). -/
def normalizeDisplayName (displayName : String) : String :=
  let parts := (jsSplitOn ',' displayName).map jsTrim
  if parts.length ≥ 2 then (parts.headD "") ++ ", " ++ (parts.getLast?.getD "")
  else
    let p0 := parts.headD ""
    if p0 == "" then displayName else p0

-- ---------------------------------------------------------------------------
-- fetchWithRetry (location-resolver.js lines 183-204)
-- ---------------------------------------------------------------------------

/-- A fetch response: `ok` plus the numeric status the retry logic inspects. -/
structure Resp where
  ok : Bool
  status : Nat
deriving DecidableEq, Repr

/-- Loop body of `fetchWithRetry` (lines 184-201). The JS loop variable
`attempt` counts up to `maxRetries`; here `remaining = maxRetries - attempt`
so the recursion is structural. The function consumes the response stream
`f` (the result of the `attempt`-th `fetch`) and also returns the list of
back-off delays `(attempt + 1) * 500` it waited (line 193). -/
def fetchWithRetryGo (f : Nat → Resp) : Nat → Nat → Option Resp × List Nat
  | 0, _ => (none, [])
  | remaining + 1, attempt =>
    let response := f attempt
    if response.ok then (some response, [])
    else if response.status == 429 || response.status == 503 then
      let res := fetchWithRetryGo f remaining (attempt + 1)
      (res.1, (attempt + 1) * 500 :: res.2)
    else (some response, [])

/-- `fetchWithRetry(url, options, maxRetries)` (lines 183-204), with the
HTTP layer abstracted into the response stream `f`. -/
def fetchWithRetry (f : Nat → Resp) (maxRetries : Nat) : Option Resp × List Nat :=
  fetchWithRetryGo f maxRetries 0

/-- A response triggers the retry branch iff it is not ok and its status is
429 or 503 (lines 187-197). -/
def retryable (r : Resp) : Bool :=
  !r.ok && (r.status == 429 || r.status == 503)

/-- Modelled from the spec: the retry behaviour the specification describes —
the initial request plus up to `maxRetries` retries on 429/503, i.e. at most
`maxRetries + 1` requests in total. Used only to exhibit where the code and
the spec sentence disagree. -/
def fetchWithRetryClaim (f : Nat → Resp) (maxRetries : Nat) : Option Resp × List Nat :=
  fetchWithRetryGo f (maxRetries + 1) 0

-- ---------------------------------------------------------------------------
-- JSON shapes returned by the upstream services
-- ---------------------------------------------------------------------------

/-- An area object nested in a MusicBrainz artist (`begin-area` / `area`):
any of `name`, `id`, `type` may be missing. -/
structure JsonArea where
  name : Option String
  id : Option String
  type : Option String
deriving DecidableEq, Repr

/-- One artist candidate from the MusicBrainz search response. -/
structure MBCandidate where
  score : Int
  name : Option String
  sortName : Option String
  id : String
  beginArea : Option JsonArea
  area : Option JsonArea
deriving DecidableEq, Repr

/-- The record `fetchFromMusicBrainz` / `fetchLocationViaRelationships`
build (lines 266, 273-275, 418-420): area fields are already coerced with
`|| null`, `exactMatch` is the flag of line 275 (absent = false). -/
structure MBRecord where
  beginArea : Option String
  beginAreaId : Option String
  beginAreaType : Option String
  area : Option String
  areaId : Option String
  areaType : Option String
  mbid : String
  artistName : Option String
  exactMatch : Bool
deriving DecidableEq, Repr

/-- Non-null result of `fetchFromMusicBrainz`: either the `{ noMatch: true }`
marker (line 282) or a candidate record. -/
inductive MBResult where
  | noMatch : MBResult
  | found : MBRecord → MBResult
deriving DecidableEq, Repr

/-- The artist object inside an artist-relationship (`rel.artist`). -/
structure ArtistRef where
  id : String
deriving DecidableEq, Repr

/-- One entry of `data.relations` in the artist-relationships lookup. -/
structure ArtistRel where
  typeId : Option String
  artist : Option ArtistRef
deriving DecidableEq, Repr

/-- The person JSON fetched by the second lookup of
`fetchLocationViaRelationships`. -/
structure PersonJson where
  name : Option String
  beginArea : Option JsonArea
  area : Option JsonArea
deriving DecidableEq, Repr

/-- The parent area inside a backward "part of" relationship
(`rel.area`), with its ISO code lists. -/
structure RelArea where
  iso1 : List String
  iso2 : List String
  type : Option String
  name : Option String
  id : Option String
deriving DecidableEq, Repr

/-- One entry of `data.relations` in the area lookup. -/
structure AreaRel where
  relType : Option String
  direction : Option String
  area : Option RelArea
deriving DecidableEq, Repr

/-- The area JSON returned by the MusicBrainz area endpoint. -/
structure AreaData where
  iso1 : List String
  iso2 : List String
  relations : List AreaRel
deriving DecidableEq, Repr

/-- `{ country, subdivision }` as returned by `resolveAreaContext`. -/
structure AreaContext where
  country : Option String
  subdivision : Option String
deriving DecidableEq, Repr

/-- The `{ name, id, type }` object returned by `chooseBestArea`. -/
structure Area where
  name : Option String
  id : Option String
  type : Option String
deriving DecidableEq, Repr

/-- One hit of the Nominatim search response. Latitude/longitude are opaque
to every claim, so the parsed floats are modelled as integers. -/
structure NomHit where
  lat : Int
  lon : Int
  displayName : String
  addresstype : Option String
  type : Option String
deriving DecidableEq, Repr

/-- `{ coords, displayName, addressType }` as produced by the geocoders. -/
structure GeoResult where
  coords : Int × Int
  displayName : String
  addressType : Option String
deriving DecidableEq, Repr

/-- The wire-level `{ location_name, location_coord }` record. -/
structure ResolvedLocation where
  location_name : Option String
  location_coord : Option (Int × Int)
deriving DecidableEq, Repr

/-- Oracles for every outbound HTTP call of the resolver. `none` covers both
network failure and an empty / non-ok response wherever the code treats the
two alike. `wikidata`, `wikipedia` and `capital` summarise the results of
`fetchFromWikidata`, `fetchFromWikipedia` and `fetchSubdivisionCapital`,
whose HTTP/regex internals no claim depends on. -/
structure Env where
  mbSearch : String → Option (List MBCandidate)
  artistRels : String → Option (List ArtistRel)
  artistLookup : String → Option PersonJson
  areaLookup : String → Option AreaData
  countryName : String → Option String
  wikidata : String → Option String
  wikipedia : String → Option String
  capital : String → Option String
  nominatim : String → Option NomHit
  photon : String → Option (Int × Int)

-- ---------------------------------------------------------------------------
-- chooseBestArea (location-resolver.js lines 47-61)
-- ---------------------------------------------------------------------------

/-- `chooseBestArea(mbResult)` (lines 47-61). -/
def chooseBestArea (m : MBRecord) : Option Area :=
  if !truthyS m.beginArea && !truthyS m.area then none
  else
    let beginSpec : Int := if truthyS m.beginArea then areaSpecificity m.beginAreaType else -2
    let areaSpec : Int := if truthyS m.area then areaSpecificity m.areaType else -2
    if truthyS m.area && decide (areaSpec ≥ beginSpec) then
      some ⟨m.area, m.areaId, m.areaType⟩
    else if truthyS m.beginArea then
      some ⟨m.beginArea, m.beginAreaId, m.beginAreaType⟩
    else
      some ⟨m.area, m.areaId, m.areaType⟩

/-- `isCityLevelGeocode(geoResult)` (lines 74-78) on a present result. -/
def isCityLevelGeocode (g : GeoResult) : Bool :=
  match g.addressType with
  | none => false
  | some t =>
    if t == "" then false
    else ["city", "town", "village", "municipality", "suburb", "neighbourhood",
          "district", "borough", "locality"].contains (jsToLower t)

-- ---------------------------------------------------------------------------
-- fetchFromMusicBrainz (location-resolver.js lines 215-291)
-- ---------------------------------------------------------------------------

/-- The candidate walk of lines 241-277: skip low scores (line 243) and
name mismatches against the sort-name (lines 248-253); return the first
remaining candidate with an area (lines 257-267), or flag an exact match
with no area (lines 271-276); otherwise keep walking. -/
def mbCandidateLoop (artistName : String) : List MBCandidate → Option MBRecord
  | [] => none
  | artist :: rest =>
    if artist.score < 70 then mbCandidateLoop artistName rest
    else
      let resultName := (jsOr artist.name).getD ""
      let sortName := (jsOr artist.sortName).getD resultName
      if !verifyArtistMatch artistName sortName then mbCandidateLoop artistName rest
      else
        let beginArea := jsOr (artist.beginArea.bind JsonArea.name)
        let beginAreaId := jsOr (artist.beginArea.bind JsonArea.id)
        let beginAreaType := jsOr (artist.beginArea.bind JsonArea.type)
        let area := jsOr (artist.area.bind JsonArea.name)
        let areaId := jsOr (artist.area.bind JsonArea.id)
        let areaType := jsOr (artist.area.bind JsonArea.type)
        if beginArea.isSome || area.isSome then
          some ⟨beginArea, beginAreaId, beginAreaType, area, areaId, areaType,
                artist.id, some resultName, false⟩
        else if isExactMatch artistName resultName then
          some ⟨none, none, none, none, none, none, artist.id, some resultName, true⟩
        else mbCandidateLoop artistName rest

/-- `fetchFromMusicBrainz(artistName)` (lines 215-291): `env.mbSearch` is
the parsed `data.artists` list, `none` standing for a failed request or a
thrown error (both return null). After the walk, a non-empty candidate list
yields the `noMatch` marker (lines 280-283), an empty one yields null. -/
def fetchFromMusicBrainz (env : Env) (artistName : String) : Option MBResult :=
  match env.mbSearch artistName with
  | none => none
  | some artists =>
    match mbCandidateLoop artistName artists with
    | some r => some (MBResult.found r)
    | none => if artists.isEmpty then none else some MBResult.noMatch

/-- The gate of lines 243-253: score at least 70 and the sort-name (falling
back to the name) passes `verifyArtistMatch`. -/
def mbGatePass (artistName : String) (artist : MBCandidate) : Bool :=
  decide (artist.score ≥ 70) &&
    verifyArtistMatch artistName ((jsOr artist.sortName).getD ((jsOr artist.name).getD ""))

/-- A candidate the walk actually returns: it passes the gate and moreover
has an area or is an exact name match (lines 265-276). -/
def mbUsable (artistName : String) (artist : MBCandidate) : Bool :=
  mbGatePass artistName artist &&
    ((jsOr (artist.beginArea.bind JsonArea.name)).isSome ||
     (jsOr (artist.area.bind JsonArea.name)).isSome ||
     isExactMatch artistName ((jsOr artist.name).getD ""))

/-- The record lines 266 / 273-275 build for a usable candidate. -/
def mbRecordOf (artist : MBCandidate) : MBRecord :=
  let resultName := (jsOr artist.name).getD ""
  let beginArea := jsOr (artist.beginArea.bind JsonArea.name)
  let area := jsOr (artist.area.bind JsonArea.name)
  if beginArea.isSome || area.isSome then
    ⟨beginArea, jsOr (artist.beginArea.bind JsonArea.id), jsOr (artist.beginArea.bind JsonArea.type),
     area, jsOr (artist.area.bind JsonArea.id), jsOr (artist.area.bind JsonArea.type),
     artist.id, some resultName, false⟩
  else ⟨none, none, none, none, none, none, artist.id, some resultName, true⟩

-- ---------------------------------------------------------------------------
-- resolveAreaContext (location-resolver.js lines 297-357)
-- ---------------------------------------------------------------------------

/-- The backward "part of" loop of lines 326-350. `prev` is the recursive
call into the parent area at the next depth. -/
def areaRelsLoop (countryName : String → Option String) (prev : String → AreaContext) :
    List AreaRel → AreaContext
  | [] => ⟨none, none⟩
  | rel :: rest =>
    match rel.area with
    | some pa =>
      if rel.relType == some "part of" && rel.direction == some "backward" then
        let code := extractCountryCode pa.iso1 pa.iso2
        if truthyS code then
          -- lines 329-335: parent carries an ISO code
          ⟨countryName (code.getD ""),
           if pa.type == some "Subdivision" then pa.name else none⟩
        else if truthyS pa.id then
          -- lines 338-347: recurse into the parent
          let parentContext := prev (pa.id.getD "")
          if truthyS parentContext.country then
            ⟨parentContext.country,
             if !truthyS parentContext.subdivision && pa.type == some "Subdivision" then pa.name
             else parentContext.subdivision⟩
          else areaRelsLoop countryName prev rest
        else areaRelsLoop countryName prev rest
      else areaRelsLoop countryName prev rest
    | none => areaRelsLoop countryName prev rest

/-- Body of `resolveAreaContext` at a given recursion budget. The JS guard
`if (depth > 5) return { country: null, subdivision: null }` (line 299) with
calls at `depth + 1` is encoded by the fuel `6 - depth`: fuel 0 is exactly
`depth > 5`. -/
def areaCtxGo (env : Env) : Nat → String → AreaContext
  | 0 => fun _ => ⟨none, none⟩
  | fuel + 1 => fun areaId =>
    match env.areaLookup areaId with
    | none => ⟨none, none⟩
    | some data =>
      let code := extractCountryCode data.iso1 data.iso2
      if truthyS code then ⟨env.countryName (code.getD ""), none⟩
      else areaRelsLoop env.countryName (areaCtxGo env fuel) data.relations

/-- `resolveAreaContext(areaId, depth)` (lines 297-357). -/
def resolveAreaContext (env : Env) (areaId : String) (depth : Nat) : AreaContext :=
  areaCtxGo env (6 - depth) areaId

-- ---------------------------------------------------------------------------
-- fetchLocationViaRelationships (location-resolver.js lines 372-430)
-- ---------------------------------------------------------------------------

/-- The relation walk of lines 390-423: on the first "is person" link, fetch
the person; a failed person lookup returns null outright (line 407), a
person without areas lets the walk continue. -/
def relsLoop (env : Env) : List ArtistRel → Option MBRecord
  | [] => none
  | rel :: rest =>
    if rel.typeId == some "dd9886f2-1dfe-4270-97db-283f6839a666" then
      match rel.artist with
      | some artistRef =>
        match env.artistLookup artistRef.id with
        | none => none
        | some person =>
          let beginArea := jsOr (person.beginArea.bind JsonArea.name)
          let area := jsOr (person.area.bind JsonArea.name)
          if beginArea.isSome || area.isSome then
            some ⟨beginArea, jsOr (person.beginArea.bind JsonArea.id),
                  jsOr (person.beginArea.bind JsonArea.type),
                  area, jsOr (person.area.bind JsonArea.id),
                  jsOr (person.area.bind JsonArea.type),
                  artistRef.id, person.name, false⟩
          else relsLoop env rest
      | none => relsLoop env rest
    else relsLoop env rest

/-- `fetchLocationViaRelationships(mbid)` (lines 372-430): `env.artistRels`
is the parsed `data.relations` list of the artist-relationships lookup. -/
def fetchLocationViaRelationships (env : Env) (mbid : String) : Option MBRecord :=
  match env.artistRels mbid with
  | none => none
  | some rels => relsLoop env rels

-- ---------------------------------------------------------------------------
-- Geocoding (location-resolver.js lines 613-727)
-- ---------------------------------------------------------------------------

/-- `geocodeWithNominatim(query)` (lines 638-657): on a hit, parse the
coordinates, normalise the display name and take `addresstype || type`. -/
def geocodeWithNominatim (env : Env) (query : String) : Option GeoResult :=
  match env.nominatim query with
  | none => none
  | some hit =>
    some ⟨(hit.lat, hit.lon), normalizeDisplayName hit.displayName,
          if truthyS hit.addresstype then hit.addresstype else hit.type⟩

/-- `geocodeWithPhoton(query)` (lines 662-682): the feature's
`[lon, lat]` pair is swapped into `[lat, lon]`. -/
def geocodeWithPhoton (env : Env) (query : String) : Option (Int × Int) :=
  match env.photon query with
  | none => none
  | some lonLat => some (lonLat.2, lonLat.1)

/-- `geocodeLocation(locationName)` (lines 613-633): Nominatim, then Photon
(keeping the query as display name), then both again on the last
comma-separated segment. -/
def geocodeLocation (env : Env) (locationName : String) : Option GeoResult :=
  match geocodeWithNominatim env locationName with
  | some result => some result
  | none =>
    match geocodeWithPhoton env locationName with
    | some coords => some ⟨coords, locationName, none⟩
    | none =>
      if locationName.data.contains ',' then
        let parts := jsSplitOn ',' locationName
        let country := jsTrim (parts.getLast?.getD "")
        match geocodeWithNominatim env country with
        | some result => some result
        | none =>
          match geocodeWithPhoton env country with
          | some coords => some ⟨coords, country, none⟩
          | none => none
      else none

/-- `geocodeMusicBrainzResult(bestArea)` (lines 689-727): resolve the area
context, snap subdivisions to their capital, then try the context-qualified
queries in order. `Option.orElse` encodes each early `return`. -/
def geocodeMusicBrainzResult (env : Env) (bestArea : Area) : Option GeoResult :=
  let context :=
    if truthyS bestArea.id then resolveAreaContext env (bestArea.id.getD "") 0
    else (⟨none, none⟩ : AreaContext)
  let capTry :=
    if bestArea.type.map jsToLower == some "subdivision" then
      let capital := match bestArea.name with
        | some n => env.capital n
        | none => none
      if truthyS capital then
        geocodeLocation env
          (if truthyS context.country then (capital.getD "") ++ ", " ++ (context.country.getD "")
           else capital.getD "")
      else none
    else none
  Option.orElse capTry fun _ =>
  Option.orElse
    (if truthyS context.subdivision && truthyS context.country then
      geocodeLocation env ((bestArea.name.getD "") ++ ", " ++ (context.subdivision.getD "") ++
        ", " ++ (context.country.getD ""))
     else none) fun _ =>
  Option.orElse
    (if truthyS context.subdivision then
      geocodeLocation env ((bestArea.name.getD "") ++ ", " ++ (context.subdivision.getD ""))
     else none) fun _ =>
  Option.orElse
    (if truthyS context.country then
      geocodeLocation env ((bestArea.name.getD "") ++ ", " ++ (context.country.getD ""))
     else none) fun _ =>
  geocodeLocation env (bestArea.name.getD "")

-- ---------------------------------------------------------------------------
-- resolveArtistLocation (location-resolver.js lines 744-858)
-- ---------------------------------------------------------------------------

/-- The `{ location_name, location_coord }` construction repeated at lines
761-764, 780-783, 799-802, 835-838 and 842-845. -/
def mkLoc (geoResult : Option GeoResult) (fallback : Option String) : ResolvedLocation :=
  match geoResult with
  | some g => ⟨some g.displayName, some g.coords⟩
  | none => ⟨fallback, none⟩

/-- `bestArea && isCityLevel(bestArea.type)` (lines 758, 778). -/
def areaCity : Option Area → Bool
  | none => false
  | some a => isCityLevel a.type

/-- The Wikipedia capital-snap block (lines 812-833): if the direct geocode
is present but not city-level, try the capital of the first comma segment
and prefer it when it geocodes (lines 816-824); if the direct geocode
failed, the capital try is the only chance (lines 825-833). -/
def wikiCapitalSnap (env : Env) (wloc : String) (geo0 : Option GeoResult) : Option GeoResult :=
  match geo0 with
  | some g =>
    if !isCityLevelGeocode g then
      let subdivisionName := ((jsSplitOn ',' wloc).map jsTrim).headD ""
      let capital := env.capital subdivisionName
      if truthyS capital then
        match geocodeLocation env ((capital.getD "") ++ ", " ++ wloc) with
        | some capitalResult => some capitalResult
        | none => some g
      else some g
    else some g
  | none =>
    let subdivisionName := ((jsSplitOn ',' wloc).map jsTrim).headD ""
    let capital := env.capital subdivisionName
    if truthyS capital then geocodeLocation env ((capital.getD "") ++ ", " ++ wloc)
    else none

/-- Steps 4e-4g and 5 of the orchestrator (lines 804-852): the three
Wikipedia queries, the capital snap, the MusicBrainz-area fallback, and the
Unknown sentinel. -/
def resolveWiki (env : Env) (artistName : String) (bestArea1 : Option Area) : ResolvedLocation :=
  let w1 := env.wikipedia (artistName ++ " musician")
  let w2 := if truthyS w1 then w1 else env.wikipedia (artistName ++ " band")
  let wikiLocation := if truthyS w2 then w2 else env.wikipedia artistName
  if truthyS wikiLocation then
    let wloc := wikiLocation.getD ""
    mkLoc (wikiCapitalSnap env wloc (geocodeLocation env wloc)) wikiLocation
  else
    match bestArea1 with
    | some ba => mkLoc (geocodeMusicBrainzResult env ba) ba.name
    | none => ⟨some "Unknown", none⟩

/-- Steps 4c-4d of the orchestrator (lines 793-802) followed by
`resolveWiki`: try Wikidata first, geocoding its label. -/
def resolveFallbacks (env : Env) (artistName : String) (bestArea1 : Option Area) :
    ResolvedLocation :=
  let wikidataLocation := env.wikidata artistName
  if truthyS wikidataLocation then
    mkLoc (geocodeLocation env (wikidataLocation.getD "")) wikidataLocation
  else resolveWiki env artistName bestArea1

/-- `resolveArtistLocation(artistName)` (lines 744-858). -/
def resolveArtistLocation (env : Env) (artistName : String) : ResolvedLocation :=
  let mb0 := fetchFromMusicBrainz env artistName
  match mb0 with
  | some MBResult.noMatch => ⟨some "Unknown", none⟩   -- lines 748-751
  | _ =>
    let mbResult : Option MBRecord := match mb0 with
      | some (MBResult.found r) => some r
      | _ => none
    -- lines 753-754
    let bestArea : Option Area := match mbResult with
      | some r => if truthyS r.beginArea || truthyS r.area then chooseBestArea r else none
      | none => none
    if areaCity bestArea then
      -- lines 758-764
      mkLoc (geocodeMusicBrainzResult env (bestArea.getD ⟨none, none, none⟩))
        ((bestArea.getD ⟨none, none, none⟩).name)
    else
      -- lines 768-775: "is person" relationships may replace the record
      let upd : Option MBRecord × Option Area := match mbResult with
        | some r =>
          if r.mbid ≠ "" then
            match fetchLocationViaRelationships env r.mbid with
            | some p => (some p, chooseBestArea p)
            | none => (some r, bestArea)
          else (some r, bestArea)
        | none => (none, bestArea)
      let mbResult1 := upd.1
      let bestArea1 := upd.2
      if areaCity bestArea1 then
        -- lines 778-783
        mkLoc (geocodeMusicBrainzResult env (bestArea1.getD ⟨none, none, none⟩))
          ((bestArea1.getD ⟨none, none, none⟩).name)
      else if (match mbResult1 with | some r => r.exactMatch | none => false) && bestArea1.isNone then
        -- lines 784-791
        ⟨some "Unknown", none⟩
      else resolveFallbacks env artistName bestArea1

-- ---------------------------------------------------------------------------
-- Cloudflare worker (worker/src/index.js)
-- ---------------------------------------------------------------------------

/-- `CACHE_TTL = 30 * 24 * 60 * 60` (index.js line 13). -/
def CACHE_TTL : Nat := 30 * 24 * 60 * 60

/-- The KV namespace: a log of puts, each key with its value and the
`expirationTtl` it was written with; `get` reads the newest put. -/
structure KV where
  entries : List (String × ResolvedLocation × Nat)
deriving DecidableEq, Repr

/-- `env.ARTIST_CACHE.get(cacheKey, 'json')`. -/
def KV.get (kv : KV) (k : String) : Option ResolvedLocation :=
  (kv.entries.find? (fun e => e.1 == k)).map (fun e => e.2.1)

/-- `env.ARTIST_CACHE.put(cacheKey, value, { expirationTtl })`. -/
def KV.put (kv : KV) (k : String) (v : ResolvedLocation) (ttl : Nat) : KV :=
  ⟨(k, v, ttl) :: kv.entries⟩

/-- `getArtistLocation(artistName, env)` (index.js lines 162-209), returning
the result together with the updated cache. A cached partial entry (name
present, not "Unknown", no coordinates) is retried through `geocodeLocation`
only (lines 171-181); an absent entry goes through the full resolver with a
30-day write-back (lines 192-206). -/
def getArtistLocation (env : Env) (cache : Option KV) (artistName : String) :
    ResolvedLocation × Option KV :=
  let cacheKey := "artist:" ++ jsToLower artistName
  match cache with
  | some kv =>
    match kv.get cacheKey with
    | some cached =>
      if truthyS cached.location_name && cached.location_name != some "Unknown" &&
          cached.location_coord.isNone then
        match geocodeLocation env (cached.location_name.getD "") with
        | some geoResult =>
          let updated : ResolvedLocation := ⟨some geoResult.displayName, some geoResult.coords⟩
          (updated, some (kv.put cacheKey updated CACHE_TTL))
        | none => (cached, some kv)
      else (cached, some kv)
    | none =>
      let result := resolveArtistLocation env artistName
      (result, some (kv.put cacheKey result CACHE_TTL))
  | none => (resolveArtistLocation env artistName, none)

/-- The cache pre-check of the POST handler (index.js lines 54-71): an entry
is flushed from cache iff it has coordinates or is the Unknown sentinel;
everything else joins `uncachedArtists` in order. -/
def precheck (cache : Option KV) (names : List String) :
    List (String × ResolvedLocation) × List String :=
  match cache with
  | none => ([], names)
  | some kv =>
    names.foldl
      (fun acc name =>
        match kv.get ("artist:" ++ jsToLower name) with
        | some cached =>
          if cached.location_coord.isSome || cached.location_name == some "Unknown" then
            (acc.1 ++ [(name, cached)], acc.2)
          else (acc.1, acc.2 ++ [name])
        | none => (acc.1, acc.2 ++ [name]))
      ([], [])

/-- The sequential resolve loop of the stream body (index.js lines 87-96),
threading the cache through `getArtistLocation`. -/
def processUncached (env : Env) : Option KV → List String → List (String × ResolvedLocation) × Option KV
  | cache, [] => ([], cache)
  | cache, name :: rest =>
    let step := getArtistLocation env cache name
    let next := processUncached env step.2 rest
    ((name, step.1) :: next.1, next.2)

/-- The whole POST `/api/artists` body once the artists list is accepted
(index.js lines 51-103): truncate to 50, pre-check the cache, emit cached
lines first, then resolve the misses in order. -/
def handleArtistsPost (env : Env) (cache : Option KV) (artists : List String) :
    List (String × ResolvedLocation) × Option KV :=
  let limitedArtists := artists.take 50
  let pre := precheck cache limitedArtists
  let streamed := processUncached env cache pre.2
  (pre.1 ++ streamed.1, streamed.2)

/-- The `artists` field of the parsed request body: absent (also the case
for any non-null JSON primitive or array, whose property access yields
`undefined`), a falsy non-array (JS `body.artists || []` turns it into
`[]`), a truthy non-array, or an actual array. -/
inductive ArtistsField where
  | missing : ArtistsField
  | notArrayFalsy : ArtistsField
  | notArrayTruthy : ArtistsField
  | arr : List String → ArtistsField
deriving DecidableEq, Repr

/-- A POST body: text that `request.json()` rejects, the JSON value `null`
(on which the property access `body.artists` at index.js line 42 throws a
TypeError), or any other JSON value with its `artists` field. -/
inductive PostBody where
  | malformed : PostBody
  | jsonNull : PostBody
  | jsonBody : ArtistsField → PostBody
deriving DecidableEq, Repr

/-- The three response shapes of the `/api/artists` route. -/
inductive WorkerResp where
  | badRequest : String → WorkerResp
  | serverError : WorkerResp
  | okStream : List (String × ResolvedLocation) → WorkerResp
deriving DecidableEq, Repr

/-- The HTTP status of each response shape (index.js lines 46, 105, 112). -/
def respStatus : WorkerResp → Nat
  | WorkerResp.badRequest _ => 400
  | WorkerResp.serverError => 500
  | WorkerResp.okStream _ => 200

/-- The POST `/api/artists` route (index.js lines 39-116): a body that fails
JSON parsing throws inside the `try` and is answered by the catch block with
status 500 (lines 109-115), and so does a body parsing to JSON `null`, on
which `body.artists` (line 42) throws a TypeError caught by the same block;
a parsed non-null body without a non-empty array gets the 400 of lines
44-49; otherwise the NDJSON stream is produced. -/
def handleArtistsRoute (env : Env) (cache : Option KV) (body : PostBody) : WorkerResp :=
  match body with
  | PostBody.malformed => WorkerResp.serverError
  | PostBody.jsonNull => WorkerResp.serverError
  | PostBody.jsonBody f =>
    match f with
    | ArtistsField.arr artists =>
      if artists.isEmpty then WorkerResp.badRequest "Invalid artists array"
      else WorkerResp.okStream (handleArtistsPost env cache artists).1
    | _ => WorkerResp.badRequest "Invalid artists array"

/-- `Array.isArray(artists) && artists.length > 0` after `body.artists || []`
(index.js lines 42-44). -/
def validArtists : ArtistsField → Bool
  | ArtistsField.arr artists => !artists.isEmpty
  | _ => false

-- ---------------------------------------------------------------------------
-- Concrete upstream behaviours used by witnesses and counterexamples
-- ---------------------------------------------------------------------------

/-- The inert environment: every upstream call fails / returns nothing. -/
def nilEnv : Env :=
  ⟨fun _ => none, fun _ => none, fun _ => none, fun _ => none, fun _ => none,
   fun _ => none, fun _ => none, fun _ => none, fun _ => none, fun _ => none⟩

/-- MusicBrainz knows artist `X` with city-level begin-area `Paris`, but
every geocoder is down. -/
def c1cexEnv : Env :=
  { nilEnv with
    mbSearch := fun q =>
      if q == "X" then
        some [⟨95, some "X", some "X", "m1", some ⟨some "Paris", some "a1", some "City"⟩, none⟩]
      else none }

/-- Nominatim answers every query with a city-level hit. -/
def c1wEnv : Env :=
  { nilEnv with nominatim := fun _ => some ⟨1, 2, "A, B", some "city", none⟩ }

/-- The scenario of the repository's `GREG` test: MusicBrainz returns the
single candidate `Greg Brown`, which the single-word gate rejects. -/
def c2wEnv : Env :=
  { nilEnv with
    mbSearch := fun q =>
      if q == "GREG" then some [⟨100, some "Greg Brown", some "Brown, Greg", "g1", none, none⟩]
      else none }

/-- An exact-match candidate with no area whose relationship lookup fails. -/
def c3wEnv : Env :=
  { nilEnv with
    mbSearch := fun q =>
      if q == "Y" then some [⟨95, some "Y", some "Y", "m9", none, none⟩] else none }

/-- An exact-match candidate with no area; the "is person" link leads to a
person whose area is only a country, and Wikidata knows a city for the name. -/
def c3cexEnv : Env :=
  { nilEnv with
    mbSearch := fun q =>
      if q == "X" then some [⟨95, some "X", some "X", "m1", none, none⟩] else none,
    artistRels := fun m =>
      if m == "m1" then
        some [⟨some "dd9886f2-1dfe-4270-97db-283f6839a666", some ⟨"m2"⟩⟩]
      else none,
    artistLookup := fun m =>
      if m == "m2" then
        some ⟨some "Adam", none, some ⟨some "France", some "fr1", some "Country"⟩⟩
      else none,
    wikidata := fun q => if q == "X" then some "Lyon" else none,
    nominatim := fun q =>
      if q == "Lyon" then some ⟨45, 4, "Lyon, Auvergne, France", some "city", none⟩
      else none }

/-- The record `fetchFromMusicBrainz` returns in `c3cexEnv`. -/
def c3cexRecord : MBRecord :=
  ⟨none, none, none, none, none, none, "m1", some "X", true⟩

/-- The record the relationship traversal returns in `c3cexEnv`. -/
def c3cexPerson : MBRecord :=
  ⟨none, none, none, some "France", some "fr1", some "Country", "m2", some "Adam", false⟩

/-- Nominatim can geocode `Paris`; nothing else works. -/
def c4Env : Env :=
  { nilEnv with
    nominatim := fun q =>
      if q == "Paris" then some ⟨48, 2, "Paris, Ile-de-France, France", some "city", none⟩
      else none }

/-- A cache holding the partial entry `Paris` (no coordinates) for `a`. -/
def c4KV : KV := ⟨[("artist:a", ⟨some "Paris", none⟩, 0)]⟩

/-- A candidate that survives the score and name gates but has no area and
is not an exact match. -/
def c5c1 : MBCandidate := ⟨90, some "The Beatles Revival", none, "b1", none, none⟩

/-- A later candidate with an area. -/
def c5c2 : MBCandidate :=
  ⟨100, some "The Beatles", some "Beatles, The", "b2", none,
   some ⟨some "United Kingdom", some "uk1", some "Country"⟩⟩

/-- The record the walk actually returns on `[c5c1, c5c2]`. -/
def c5rec2 : MBRecord :=
  ⟨none, none, none, some "United Kingdom", some "uk1", some "Country", "b2",
   some "The Beatles", false⟩

/-- A response stream: two rate-limited responses, then a success. -/
def c6f : Nat → Resp := fun i => if i < 2 then ⟨false, 429⟩ else ⟨true, 200⟩

-- ---------------------------------------------------------------------------
-- Theorems
-- ---------------------------------------------------------------------------

/-- C2 (confirmed): whenever `fetchFromMusicBrainz` returns the noMatch
marker, `resolveArtistLocation` returns the Unknown sentinel. The statement
is quantified over the whole `Env`, so the conclusion holds regardless of
what the relationship, Wikidata or Wikipedia oracles would return: none of
them is consulted. -/
theorem c2_noMatch_sticky (env : Env) (artistName : String)
    (h : fetchFromMusicBrainz env artistName = some MBResult.noMatch) :
    resolveArtistLocation env artistName = ⟨some "Unknown", none⟩ := by
  simp [resolveArtistLocation, h]

/-- Witness for C2: the repository's `GREG` scenario — the only candidate
`Greg Brown` is rejected by the single-word gate, and the resolver answers
Unknown. -/
theorem c2_noMatch_sticky_wit :
    resolveArtistLocation c2wEnv "GREG" = ⟨some "Unknown", none⟩ :=
  c2_noMatch_sticky c2wEnv "GREG" (by decide)

/-- C3 counterexample: in `c3cexEnv`, `fetchFromMusicBrainz` returns an
exact-match candidate with no area, and the relationship traversal yields
only a country-level area (not city-level) — yet the resolver does consult
the Wikidata fallback and returns `Lyon, France` instead of the Unknown
sentinel the claim demands. -/
theorem c3_exactMatch_fallback_cex :
    fetchFromMusicBrainz c3cexEnv "X" = some (MBResult.found c3cexRecord) ∧
    c3cexRecord.exactMatch = true ∧ c3cexRecord.beginArea = none ∧ c3cexRecord.area = none ∧
    fetchLocationViaRelationships c3cexEnv "m1" = some c3cexPerson ∧
    areaCity (chooseBestArea c3cexPerson) = false ∧
    resolveArtistLocation c3cexEnv "X" = ⟨some "Lyon, France", some (45, 4)⟩ ∧
    (⟨some "Lyon, France", some (45, 4)⟩ : ResolvedLocation) ≠ ⟨some "Unknown", none⟩ := by
  refine ⟨by decide, by decide, by decide, by decide, by decide, by decide, by decide, by decide⟩

/-- C3 (corrected): if `fetchFromMusicBrainz` returns an exact-match
candidate with no area and the relationship traversal yields nothing at
all, the resolver returns the Unknown sentinel — quantified over `Env`, so
the Wikidata and Wikipedia oracles are provably not consulted. (When the
traversal yields a non-city-level area instead, the fallbacks are
consulted; see the counterexample.) -/
theorem c3_exactMatch_no_rels_unknown (env : Env) (artistName : String) (r : MBRecord)
    (h1 : fetchFromMusicBrainz env artistName = some (MBResult.found r))
    (h2 : r.exactMatch = true)
    (h3 : truthyS r.beginArea = false) (h4 : truthyS r.area = false)
    (h5 : fetchLocationViaRelationships env r.mbid = none) :
    resolveArtistLocation env artistName = ⟨some "Unknown", none⟩ := by
  simp only [resolveArtistLocation, h1]
  simp [h2, h3, h4, h5, areaCity]

/-- Witness for C3: an exact-match candidate `Y` with no area and a failed
relationship lookup resolves to Unknown. -/
theorem c3_exactMatch_no_rels_unknown_wit :
    resolveArtistLocation c3wEnv "Y" = ⟨some "Unknown", none⟩ :=
  c3_exactMatch_no_rels_unknown c3wEnv "Y"
    ⟨none, none, none, none, none, none, "m9", some "Y", true⟩
    (by decide) (by decide) (by decide) (by decide) (by decide)

/-- C7 counterexample: two invalid POST `/api/artists` bodies the handler
answers with status 500, not the claimed 400 — a body that is not valid
JSON (the catch block around `request.json()`), and the body `null`, which
parses as JSON but makes the property access `body.artists` throw inside
the same `try`. -/
theorem c7_malformed_body_cex :
    handleArtistsRoute nilEnv none PostBody.malformed = WorkerResp.serverError ∧
    respStatus (handleArtistsRoute nilEnv none PostBody.malformed) = 500 ∧
    handleArtistsRoute nilEnv none PostBody.jsonNull = WorkerResp.serverError ∧
    respStatus (handleArtistsRoute nilEnv none PostBody.jsonNull) = 500 ∧
    (500 : Nat) ≠ 400 := by
  refine ⟨rfl, rfl, rfl, rfl, by decide⟩

/-- C7 (corrected): every POST body that parses as JSON to a value other
than `null` and does not carry a non-empty `artists` array is answered with
status 400 and the error `Invalid artists array`; a body that fails JSON
parsing, or parses to JSON `null` (so that `body.artists` throws), gets 500
instead. -/
theorem c7_invalid_artists_400 (env : Env) (cache : Option KV) (f : ArtistsField)
    (h : validArtists f = false) :
    handleArtistsRoute env cache (PostBody.jsonBody f) =
      WorkerResp.badRequest "Invalid artists array" ∧
    respStatus (handleArtistsRoute env cache (PostBody.jsonBody f)) = 400 ∧
    respStatus (handleArtistsRoute env cache PostBody.malformed) = 500 ∧
    respStatus (handleArtistsRoute env cache PostBody.jsonNull) = 500 := by
  refine ⟨?_, ?_, rfl, rfl⟩ <;> cases f <;> simp_all [handleArtistsRoute, validArtists, respStatus]

/-- Witness for C7: a JSON body with an empty artists array gets the 400,
while the unparsable and `null` bodies get 500. -/
theorem c7_invalid_artists_400_wit :
    handleArtistsRoute nilEnv none (PostBody.jsonBody (ArtistsField.arr [])) =
      WorkerResp.badRequest "Invalid artists array" ∧
    respStatus (handleArtistsRoute nilEnv none (PostBody.jsonBody (ArtistsField.arr []))) = 400 ∧
    respStatus (handleArtistsRoute nilEnv none PostBody.malformed) = 500 ∧
    respStatus (handleArtistsRoute nilEnv none PostBody.jsonNull) = 500 :=
  c7_invalid_artists_400 nilEnv none (ArtistsField.arr []) (by decide)

/-- C8 (confirmed): the backward "part of" walk is depth-limited — any call
of `resolveAreaContext` with depth greater than 5 returns the empty context
immediately, for every environment, including ones whose area graph is
cyclic; totality of the Lean function `resolveAreaContext` over arbitrary
`Env` is the termination half of the claim. -/
theorem c8_area_walk_depth_guard (env : Env) (areaId : String) (depth : Nat)
    (h : depth > 5) :
    resolveAreaContext env areaId depth = ⟨none, none⟩ := by
  unfold resolveAreaContext
  have h6 : 6 - depth = 0 := by omega
  rw [h6]
  rfl

/-- Witness for C8: a depth-6 call returns the empty context at once. -/
theorem c8_area_walk_depth_guard_wit :
    resolveAreaContext nilEnv "x" 6 = ⟨none, none⟩ :=
  c8_area_walk_depth_guard nilEnv "x" 6 (by decide)

/-- Under a total Nominatim oracle every `geocodeLocation` call succeeds. -/
theorem geocodeLocation_isSome (env : Env) (H : ∀ s, (env.nominatim s).isSome = true)
    (q : String) : (geocodeLocation env q).isSome = true := by
  obtain ⟨hit, hh⟩ := Option.isSome_iff_exists.mp (H q)
  simp [geocodeLocation, geocodeWithNominatim, hh]

/-- A chained early-return succeeds when its fallback does. -/
theorem orElse_isSome {α : Type} (x : Option α) (f : Unit → Option α)
    (h : (f ()).isSome = true) : (Option.orElse x f).isSome = true := by
  cases x <;> simp [Option.orElse, h]

/-- Under a total Nominatim oracle `geocodeMusicBrainzResult` succeeds. -/
theorem geocodeMusicBrainzResult_isSome (env : Env)
    (H : ∀ s, (env.nominatim s).isSome = true) (bestArea : Area) :
    (geocodeMusicBrainzResult env bestArea).isSome = true := by
  unfold geocodeMusicBrainzResult
  apply orElse_isSome
  apply orElse_isSome
  apply orElse_isSome
  apply orElse_isSome
  exact geocodeLocation_isSome env H _

/-- `mkLoc` of a present geocode result carries coordinates. -/
theorem mkLoc_coord_isSome (g : Option GeoResult) (fallback : Option String)
    (h : g.isSome = true) : ((mkLoc g fallback).location_coord).isSome = true := by
  cases g with
  | none => simp at h
  | some v => simp [mkLoc]

/-- The Wikipedia capital snap never loses a present direct geocode. -/
theorem wikiCapitalSnap_isSome (env : Env) (wloc : String) (geo0 : Option GeoResult)
    (h : geo0.isSome = true) : (wikiCapitalSnap env wloc geo0).isSome = true := by
  cases geo0 with
  | none => simp at h
  | some g =>
    simp only [wikiCapitalSnap]
    split
    · split
      · split <;> simp
      · simp
    · simp

/-- Under a total Nominatim oracle, `resolveWiki` either returns
coordinates or the Unknown sentinel. -/
theorem resolveWiki_total (env : Env) (H : ∀ s, (env.nominatim s).isSome = true)
    (artistName : String) (bestArea1 : Option Area) :
    ((resolveWiki env artistName bestArea1).location_coord).isSome = true ∨
    (resolveWiki env artistName bestArea1).location_name = some "Unknown" := by
  simp only [resolveWiki]
  split
  · left
    exact mkLoc_coord_isSome _ _
      (wikiCapitalSnap_isSome env _ _ (geocodeLocation_isSome env H _))
  · split
    · left
      exact mkLoc_coord_isSome _ _
        (wikiCapitalSnap_isSome env _ _ (geocodeLocation_isSome env H _))
    · split
      · left
        exact mkLoc_coord_isSome _ _
          (wikiCapitalSnap_isSome env _ _ (geocodeLocation_isSome env H _))
      · split
        · left
          exact mkLoc_coord_isSome _ _ (geocodeMusicBrainzResult_isSome env H _)
        · right
          rfl

/-- Under a total Nominatim oracle, `resolveFallbacks` either returns
coordinates or the Unknown sentinel. -/
theorem resolveFallbacks_total (env : Env) (H : ∀ s, (env.nominatim s).isSome = true)
    (artistName : String) (bestArea1 : Option Area) :
    ((resolveFallbacks env artistName bestArea1).location_coord).isSome = true ∨
    (resolveFallbacks env artistName bestArea1).location_name = some "Unknown" := by
  simp only [resolveFallbacks]
  split
  · left
    exact mkLoc_coord_isSome _ _ (geocodeLocation_isSome env H _)
  · exact resolveWiki_total env H artistName bestArea1

/-- C1 counterexample: with all geocoders down, a city-level MusicBrainz
area yields the partial result `Paris` with a null coordinate — a
non-Unknown name with no coordinates, which the claim forbids. -/
theorem c1_partial_result_cex :
    resolveArtistLocation c1cexEnv "X" = ⟨some "Paris", none⟩ ∧
    some "Paris" ≠ some "Unknown" ∧
    (resolveArtistLocation c1cexEnv "X").location_coord = none := by
  refine ⟨by decide, by decide, by decide⟩

/-- C1 (corrected): partial results arise exactly from geocoding failures —
if the Nominatim oracle answers every query, then every resolution either
carries coordinates or is the Unknown sentinel. Without that hypothesis a
failed geocode surfaces the attempted location string with a null
coordinate (see the counterexample). -/
theorem c1_resolve_total_geocode (env : Env) (artistName : String)
    (H : ∀ s, (env.nominatim s).isSome = true) :
    ((resolveArtistLocation env artistName).location_coord).isSome = true ∨
    (resolveArtistLocation env artistName).location_name = some "Unknown" := by
  simp only [resolveArtistLocation]
  split
  · right
    rfl
  · split
    · left
      exact mkLoc_coord_isSome _ _ (geocodeMusicBrainzResult_isSome env H _)
    · split
      · left
        exact mkLoc_coord_isSome _ _ (geocodeMusicBrainzResult_isSome env H _)
      · split
        · right
          rfl
        · exact resolveFallbacks_total env H artistName _

/-- Witness for C1: with a total Nominatim oracle the resolution of `A`
(for which MusicBrainz knows nothing) lands in the Unknown disjunct. -/
theorem c1_resolve_total_geocode_wit :
    ((resolveArtistLocation c1wEnv "A").location_coord).isSome = true ∨
    (resolveArtistLocation c1wEnv "A").location_name = some "Unknown" :=
  c1_resolve_total_geocode c1wEnv "A" (fun _ => rfl)

/-- C4 counterexample: the partial cache entry `Paris` for artist `a` is
treated as a miss by the pre-check, but the batch path then re-runs only
geocoding on the stored name via `getArtistLocation` — it does not invoke
the orchestrator, whose result for `a` would be the Unknown sentinel. -/
theorem c4_partial_retry_cex :
    precheck (some c4KV) ["a"] = ([], ["a"]) ∧
    handleArtistsPost c4Env (some c4KV) ["a"] =
      ([("a", ⟨some "Paris, France", some (48, 2)⟩)],
       some ⟨[("artist:a", ⟨some "Paris, France", some (48, 2)⟩, 2592000),
              ("artist:a", ⟨some "Paris", none⟩, 0)]⟩) ∧
    resolveArtistLocation c4Env "a" = ⟨some "Unknown", none⟩ ∧
    (⟨some "Paris, France", some (48, 2)⟩ : ResolvedLocation) ≠ ⟨some "Unknown", none⟩ := by
  refine ⟨by decide, by decide, by decide, by decide⟩

/-- C4 (corrected): a partial cache entry is indeed treated as a miss by
the batch pre-check, but the per-name resolution then goes through
`getArtistLocation`, which finds the partial entry again and only re-runs
geocoding on the stored `location_name`; a successful retry is written back
with the 30-day TTL, a failed one leaves the cache untouched. The
orchestrator is not invoked for such entries. -/
theorem c4_partial_entry_retry (env : Env) (kv : KV) (name : String)
    (cached : ResolvedLocation)
    (h1 : kv.get ("artist:" ++ jsToLower name) = some cached)
    (h2 : truthyS cached.location_name = true)
    (h3 : cached.location_name ≠ some "Unknown")
    (h4 : cached.location_coord = none) :
    precheck (some kv) [name] = ([], [name]) ∧
    getArtistLocation env (some kv) name =
      (match geocodeLocation env (cached.location_name.getD "") with
       | some geoResult =>
         (⟨some geoResult.displayName, some geoResult.coords⟩,
          some (kv.put ("artist:" ++ jsToLower name)
            ⟨some geoResult.displayName, some geoResult.coords⟩ CACHE_TTL))
       | none => (cached, some kv)) ∧
    CACHE_TTL = 2592000 := by
  refine ⟨?_, ?_, rfl⟩
  · simp [precheck, h1, h4, h3]
  · simp [getArtistLocation, h1, h2, h3, h4]

/-- Witness for C4: on the concrete partial entry `Paris`, the retry
succeeds and the updated entry is cached under the 30-day TTL. -/
theorem c4_partial_entry_retry_wit :
    precheck (some c4KV) ["a"] = ([], ["a"]) ∧
    getArtistLocation c4Env (some c4KV) "a" =
      (match geocodeLocation c4Env ((some "Paris" : Option String).getD "") with
       | some geoResult =>
         (⟨some geoResult.displayName, some geoResult.coords⟩,
          some (c4KV.put ("artist:" ++ jsToLower "a")
            ⟨some geoResult.displayName, some geoResult.coords⟩ CACHE_TTL))
       | none => (⟨some "Paris", none⟩, some c4KV)) ∧
    CACHE_TTL = 2592000 :=
  c4_partial_entry_retry c4Env c4KV "a" ⟨some "Paris", none⟩
    (by decide) (by decide) (by decide) (by decide)

/-- The candidate walk returns exactly the first candidate that passes the
gates and moreover has an area or is an exact match. -/
theorem mbCandidateLoop_eq_find (artistName : String) (artists : List MBCandidate) :
    mbCandidateLoop artistName artists =
      (artists.find? (mbUsable artistName)).map mbRecordOf := by
  induction artists with
  | nil => rfl
  | cons artist rest ih =>
    by_cases hs : artist.score < 70
    · have hu : mbUsable artistName artist = false := by
        simp [mbUsable, mbGatePass]
        intro h
        omega
      simp [mbCandidateLoop, hs, List.find?, hu, ih]
    · by_cases hv : verifyArtistMatch artistName
        ((jsOr artist.sortName).getD ((jsOr artist.name).getD "")) = true
      · by_cases ha : (jsOr (artist.beginArea.bind JsonArea.name)).isSome ||
            (jsOr (artist.area.bind JsonArea.name)).isSome = true
        · have hu : mbUsable artistName artist = true := by
            simp only [mbUsable, mbGatePass]
            simp_all
            try omega
          simp only [mbCandidateLoop, if_neg hs, hv, if_pos]
          simp only [List.find?, hu, Option.map_some]
          simp_all [mbRecordOf]
        · by_cases he : isExactMatch artistName ((jsOr artist.name).getD "") = true
          · have hu : mbUsable artistName artist = true := by
              simp only [mbUsable, mbGatePass]
              simp_all
              try omega
            simp only [mbCandidateLoop, if_neg hs, hv, if_pos]
            simp only [List.find?, hu, Option.map_some]
            simp_all [mbRecordOf]
          · have hu : mbUsable artistName artist = false := by
              simp only [mbUsable, mbGatePass]
              simp_all
            simp only [mbCandidateLoop, if_neg hs, hv, if_pos]
            simp_all [List.find?, hu, ih]
      · have hu : mbUsable artistName artist = false := by
          simp [mbUsable, mbGatePass, hv]
        simp [mbCandidateLoop, hs, hv, List.find?, hu, ih]

/-- C5 counterexample: on the list `[c5c1, c5c2]`, `c5c1` survives both the
score gate and the name gate, yet the function skips it (it has no area and
is not an exact match) and returns `c5c2` — not the first surviving
candidate with its raw area fields, as the claim states. -/
theorem c5_first_survivor_cex :
    mbGatePass "the beatles" c5c1 = true ∧
    mbCandidateLoop "the beatles" [c5c1, c5c2] = some c5rec2 ∧
    c5rec2.mbid = "b2" ∧ c5c1.id = "b1" ∧ ("b2" : String) ≠ "b1" := by
  refine ⟨by decide, by decide, by decide, by decide, by decide⟩

/-- C5 (corrected): `fetchFromMusicBrainz` walks the candidates in order
and returns the first one that passes the score and name gates *and* either
has a begin-area/area (returned with its raw fields) or is an exact name
match (returned with the exactMatch flag); gate-passing candidates with no
area that are not exact matches are skipped as well. If no candidate
qualifies, a non-empty candidate list yields the noMatch marker and an
empty search yields null. -/
theorem c5_mb_selection (env : Env) (artistName : String) :
    fetchFromMusicBrainz env artistName =
      match env.mbSearch artistName with
      | none => none
      | some artists =>
        match (artists.find? (mbUsable artistName)).map mbRecordOf with
        | some r => some (MBResult.found r)
        | none => if artists.isEmpty then none else some MBResult.noMatch := by
  unfold fetchFromMusicBrainz
  simp only [mbCandidateLoop_eq_find]

/-- Shifting the attempt base through one back-off delay. -/
theorem delayShift (a n : Nat) :
    (a + 1) * 500 :: (List.range n).map (fun j => (a + 1 + j + 1) * 500) =
    (List.range (n + 1)).map (fun j => (a + j + 1) * 500) := by
  rw [List.range_succ_eq_map, List.map_cons, List.map_map]
  simp only [List.cons.injEq]
  constructor
  · simp
  · apply List.map_congr_left
    intro j _
    simp only [Function.comp_apply]
    omega

/-- If every response in the window is retryable, the loop consumes all of
its attempts, waits `(attempt + 1) * 500` after each of them (including the
last), and returns null. -/
theorem fetchWithRetryGo_exhaust (f : Nat → Resp) :
    ∀ (remaining attempt : Nat),
      (∀ k, k < remaining → retryable (f (attempt + k)) = true) →
      fetchWithRetryGo f remaining attempt =
        (none, (List.range remaining).map (fun j => (attempt + j + 1) * 500)) := by
  intro remaining
  induction remaining with
  | zero => intro attempt _; rfl
  | succ n ih =>
    intro attempt h
    have h0 : retryable (f attempt) = true := by
      have := h 0 (by omega)
      simpa using this
    have hok : (f attempt).ok = false := by
      by_contra hc
      simp [retryable, eq_true_of_ne_false hc] at h0
    have hst : ((f attempt).status == 429 || (f attempt).status == 503) = true := by
      simp [retryable, hok] at h0
      rcases h0 with h0 | h0 <;> simp [h0]
    have ihv := ih (attempt + 1) (fun k hk => by
      have := h (k + 1) (by omega)
      simpa [Nat.add_assoc, Nat.add_comm 1 k] using this)
    simp only [fetchWithRetryGo, hok, hst, if_false, if_true, Bool.false_eq_true, ite_false,
      ite_true, ihv]
    simp only [Prod.mk.injEq, true_and]
    exact delayShift attempt n

/-- If the first non-retryable response in the window sits at offset `i`,
the loop returns it unmodified after `i` back-off waits. -/
theorem fetchWithRetryGo_found (f : Nat → Resp) :
    ∀ (remaining attempt i : Nat), i < remaining →
      retryable (f (attempt + i)) = false →
      (∀ k, k < i → retryable (f (attempt + k)) = true) →
      fetchWithRetryGo f remaining attempt =
        (some (f (attempt + i)), (List.range i).map (fun j => (attempt + j + 1) * 500)) := by
  intro remaining
  induction remaining with
  | zero => intro attempt i hi; omega
  | succ n ih =>
    intro attempt i hi hri hbefore
    match i with
    | 0 =>
      simp only [Nat.add_zero] at hri
      cases hok : (f attempt).ok with
      | true => simp [fetchWithRetryGo, hok]
      | false =>
        have hst : ((f attempt).status == 429 || (f attempt).status == 503) = false := by
          simp [retryable, hok] at hri
          simp [hri]
        simp [fetchWithRetryGo, hok, hst]
    | i' + 1 =>
      have h0 : retryable (f attempt) = true := by
        have := hbefore 0 (by omega)
        simpa using this
      have hok : (f attempt).ok = false := by
        by_contra hc
        simp [retryable, eq_true_of_ne_false hc] at h0
      have hst : ((f attempt).status == 429 || (f attempt).status == 503) = true := by
        simp [retryable, hok] at h0
        rcases h0 with h0 | h0 <;> simp [h0]
      have ihv := ih (attempt + 1) i' (by omega)
        (by
          have e0 : attempt + 1 + i' = attempt + (i' + 1) := by omega
          rw [e0]
          exact hri)
        (fun k hk => by
          have := hbefore (k + 1) (by omega)
          simpa [Nat.add_assoc, Nat.add_comm 1 k] using this)
      have e1 : attempt + 1 + i' = attempt + (i' + 1) := by omega
      rw [e1] at ihv
      simp only [fetchWithRetryGo, hok, hst, Bool.false_eq_true, ite_false, ite_true, ihv]
      simp only [Prod.mk.injEq, true_and]
      exact delayShift attempt i'

/-- Lowercasing maps only the empty string to the empty string. -/
theorem jsToLower_empty_iff (s : String) : jsToLower s = "" ↔ s = "" := by
  constructor
  · intro h
    cases s with
    | mk data =>
      cases data with
      | nil => rfl
      | cons c cs => exact absurd (congrArg String.data h) (by simp [jsToLower])
  · intro h
    subst h
    rfl

/-- The value of `areaSpecificity` is always one of -1, 0, 1, 2, 3. -/
theorem areaSpecificity_range (t : Option String) :
    areaSpecificity t = -1 ∨ areaSpecificity t = 0 ∨ areaSpecificity t = 1 ∨
    areaSpecificity t = 2 ∨ areaSpecificity t = 3 := by
  cases t with
  | none => simp [areaSpecificity]
  | some s =>
    simp only [areaSpecificity]
    split_ifs <;> simp

/-- C9 counterexample: the empty string is a non-null area type, yet the
guard `if (!areaType)` is JS truthiness, so `areaSpecificity("")` is -1,
not the 1 the claim assigns to "any other non-null type". -/
theorem c9_empty_type_cex :
    areaSpecificity (some "") = -1 ∧ (-1 : Int) ≠ 1 := by
  refine ⟨by decide, by decide⟩

/-- C9 (corrected): `areaSpecificity` is total with range -1..3;
country = 0, subdivision = 1, county = 2, the six city-level types = 3, any
other non-null *non-empty* type = 1, and null *or the empty string* = -1,
all case-insensitively; and `isCityLevel t` holds iff
`areaSpecificity t = 3`. -/
theorem c9_areaSpecificity_props :
    (∀ t, areaSpecificity t = -1 ∨ areaSpecificity t = 0 ∨ areaSpecificity t = 1 ∨
      areaSpecificity t = 2 ∨ areaSpecificity t = 3) ∧
    (∀ t, isCityLevel t = true ↔ areaSpecificity t = 3) ∧
    areaSpecificity none = -1 ∧ areaSpecificity (some "") = -1 ∧
    (∀ s, jsToLower s = "country" → areaSpecificity (some s) = 0) ∧
    (∀ s, jsToLower s = "subdivision" → areaSpecificity (some s) = 1) ∧
    (∀ s, jsToLower s = "county" → areaSpecificity (some s) = 2) ∧
    (∀ s, jsToLower s = "city" ∨ jsToLower s = "municipality" ∨ jsToLower s = "district" ∨
      jsToLower s = "town" ∨ jsToLower s = "village" ∨ jsToLower s = "island" →
      areaSpecificity (some s) = 3) ∧
    (∀ s, s ≠ "" →
      jsToLower s ∉ (["country", "subdivision", "county", "city", "municipality",
        "district", "town", "village", "island"] : List String) →
      areaSpecificity (some s) = 1) ∧
    (∀ s₁ s₂, jsToLower s₁ = jsToLower s₂ →
      areaSpecificity (some s₁) = areaSpecificity (some s₂)) := by
  have hkw : ∀ s (kw : String), jsToLower s = kw → kw ≠ "" → (s == "") = false := by
    intro s kw h hkw
    rcases he : s == "" with _ | _
    · rfl
    · exfalso
      have hs : s = "" := by simpa using he
      subst hs
      have hlow : jsToLower "" = "" := by decide
      exact hkw (h.symm.trans hlow)
  refine ⟨areaSpecificity_range, ?_, rfl, rfl, ?_, ?_, ?_, ?_, ?_, ?_⟩
  · intro t
    simp only [isCityLevel, ge_iff_le, decide_eq_true_eq]
    rcases areaSpecificity_range t with h | h | h | h | h <;> rw [h] <;> norm_num
  · intro s h
    have hb := hkw s "country" h (by decide)
    simp [areaSpecificity, hb, h]
  · intro s h
    have hb := hkw s "subdivision" h (by decide)
    simp [areaSpecificity, hb, h]
  · intro s h
    have hb := hkw s "county" h (by decide)
    simp [areaSpecificity, hb, h]
  · intro s h
    rcases h with h | h | h | h | h | h
    · have hb := hkw s "city" h (by decide)
      simp [areaSpecificity, hb, h]
    · have hb := hkw s "municipality" h (by decide)
      simp [areaSpecificity, hb, h]
    · have hb := hkw s "district" h (by decide)
      simp [areaSpecificity, hb, h]
    · have hb := hkw s "town" h (by decide)
      simp [areaSpecificity, hb, h]
    · have hb := hkw s "village" h (by decide)
      simp [areaSpecificity, hb, h]
    · have hb := hkw s "island" h (by decide)
      simp [areaSpecificity, hb, h]
  · intro s hne hmem
    have hb : (s == "") = false := by simpa using hne
    simp only [List.mem_cons, List.not_mem_nil, or_false, not_or] at hmem
    obtain ⟨h1, h2, h3, h4, h5, h6, h7, h8, h9⟩ := hmem
    simp [areaSpecificity, hb, beq_iff_eq, h1, h2, h3, h4, h5, h6, h7, h8, h9]
  · intro s₁ s₂ h
    by_cases h1 : s₁ = ""
    · subst h1
      have hlow : jsToLower "" = "" := by decide
      have h2 : s₂ = "" := (jsToLower_empty_iff s₂).mp (h.symm.trans hlow)
      subst h2
      rfl
    · have h2 : s₂ ≠ "" := by
        intro he
        subst he
        exact h1 ((jsToLower_empty_iff s₁).mp (h.trans (by rfl)))
      have b1 : (s₁ == "") = false := by simpa using h1
      have b2 : (s₂ == "") = false := by simpa using h2
      simp only [areaSpecificity, b1, b2]
      rw [h]

/-- Witness for C9: a capitalised `COUNTRY` type ranks 0. -/
theorem c9_areaSpecificity_props_wit :
    areaSpecificity (some "COUNTRY") = 0 :=
  c9_areaSpecificity_props.2.2.2.2.1 "COUNTRY" (by decide)

/-- The empty needle is a substring of everything, as in JS. -/
theorem jsIncludesGo_nil (hay : List Char) : jsIncludesGo [] hay = true := by
  cases hay <;> simp [jsIncludesGo, jsStartsWith]

/-- C10 (confirmed): in `verifyArtistMatch`, a query token of length at
most 2 can never be counted as missing, because the fallback test compares
the token minus its last two characters — the empty string, a substring of
every candidate; consequently every multi-word query all of whose tokens
have length at most 2 passes the gate against every candidate name. -/
theorem c10_short_tokens_pass :
    (∀ resultLower word : String, word.data.length ≤ 2 →
      (!(jsIncludes resultLower word) &&
        !(jsIncludes resultLower (jsSliceDropLast2 word))) = false) ∧
    (∀ searchName resultName : String,
      2 ≤ (splitWsJS (jsTrim (jsToLower searchName))).length →
      (∀ w ∈ splitWsJS (jsTrim (jsToLower searchName)), w.data.length ≤ 2) →
      verifyArtistMatch searchName resultName = true) := by
  have key : ∀ resultLower word : String, word.data.length ≤ 2 →
      (!(jsIncludes resultLower word) &&
        !(jsIncludes resultLower (jsSliceDropLast2 word))) = false := by
    intro resultLower word hw
    have h0 : word.data.length - 2 = 0 := by omega
    have hslice : (jsSliceDropLast2 word).data = [] := by
      show word.data.take (word.data.length - 2) = []
      rw [h0, List.take_zero]
    have hinc : jsIncludes resultLower (jsSliceDropLast2 word) = true := by
      rw [jsIncludes, hslice]
      exact jsIncludesGo_nil _
    simp [hinc]
  refine ⟨key, ?_⟩
  intro searchName resultName hlen hshort
  simp only [verifyArtistMatch]
  have hne : ((splitWsJS (jsTrim (jsToLower searchName))).length == 1) = false := by
    simp only [beq_eq_false_iff_ne]
    omega
  rw [hne]
  simp only [Bool.false_eq_true, if_false]
  have hfilter :
      (splitWsJS (jsTrim (jsToLower searchName))).filter (fun word =>
        !(jsIncludes (jsTrim (jsToLower resultName)) word) &&
        !(jsIncludes (jsTrim (jsToLower resultName)) (jsSliceDropLast2 word))) = [] := by
    apply List.filter_eq_nil_iff.mpr
    intro w hw
    simp only [Bool.not_eq_true]
    exact key (jsTrim (jsToLower resultName)) w (hshort w hw)
  rw [hfilter]
  simp

/-- Witness for C10: the two-token query `ab cd`, all tokens of length 2,
passes the gate against a candidate containing neither token. -/
theorem c10_short_tokens_pass_wit :
    verifyArtistMatch "ab cd" "zzzz" = true :=
  c10_short_tokens_pass.2 "ab cd" "zzzz" (by decide) (by decide)

/-- C6 counterexample: with `maxRetries = 2` and the response stream
429, 429, 200, `fetchWithRetry` makes only two requests — a single retry —
waits 500 ms and 1000 ms, and returns the null sentinel, even though the
retry behaviour described by the claim (up to `maxRetries` retries) would
have reached the succeeding third response, as `fetchWithRetryClaim`
shows. -/
theorem c6_retry_count_cex :
    fetchWithRetry c6f 2 = (none, [500, 1000]) ∧
    (c6f 2).ok = true ∧
    fetchWithRetryClaim c6f 2 = (some ⟨true, 200⟩, [500, 1000]) ∧
    fetchWithRetryClaim c6f 2 ≠ fetchWithRetry c6f 2 := by
  refine ⟨by decide, by decide, by decide, by decide⟩

/-- C6 (corrected): `fetchWithRetry` makes at most `maxRetries` requests in
total, i.e. it retries at most `maxRetries - 1` times. If the first
`maxRetries` responses are all 429/503, it waits `(attempt + 1) * 500` ms
after each attempt (including a final wait after the last one) and then
returns null; if the first non-retryable response arrives at attempt `i`,
that response — success or any other error status — is returned unmodified
after the `i` back-off waits `500, 1000, …, i * 500`. -/
theorem c6_fetchWithRetry_behavior (f : Nat → Resp) (maxRetries : Nat) :
    ((∀ i, i < maxRetries → retryable (f i) = true) →
      fetchWithRetry f maxRetries =
        (none, (List.range maxRetries).map (fun j => (j + 1) * 500))) ∧
    (∀ i, i < maxRetries → retryable (f i) = false →
      (∀ j, j < i → retryable (f j) = true) →
      fetchWithRetry f maxRetries =
        (some (f i), (List.range i).map (fun j => (j + 1) * 500))) := by
  constructor
  · intro h
    have := fetchWithRetryGo_exhaust f maxRetries 0 (fun k hk => by
      simpa using h k hk)
    simpa [fetchWithRetry] using this
  · intro i hi hri hbefore
    have := fetchWithRetryGo_found f maxRetries 0 i hi (by simpa using hri)
      (fun k hk => by simpa using hbefore k hk)
    simpa [fetchWithRetry] using this

/-- Witness for C6: stream 429 then 200 with `maxRetries = 2` — the 200 is
returned after one 500 ms wait. -/
theorem c6_fetchWithRetry_behavior_wit :
    fetchWithRetry (fun i => if i == 0 then ⟨false, 429⟩ else ⟨true, 200⟩) 2 =
      (some ⟨true, 200⟩, [500]) := by
  have h := (c6_fetchWithRetry_behavior
    (fun i => if i == 0 then ⟨false, 429⟩ else ⟨true, 200⟩) 2).2 1
    (by decide) (by decide) (fun j hj => by
      interval_cases j
      decide)
  simpa using h
